import Mathlib

/-!
Verification of the social-media content validation core of this repository:
the platform registry (`social-platform-specs.ts`) and the validation
utilities (`validateTextContent`, `validateHashtags`, `validateImage`,
`validateVideo`, `validatePost`).

Embedding conventions: JavaScript runtime numbers (file sizes, pixel
dimensions, durations) are modelled as rationals (`ℚ`); the registry's
integer constants are naturals, cast to `ℚ` where the code compares them
with runtime numbers.  JavaScript strings are Lean `String`s and `.length`
counts characters.  The record lookup `PLATFORM_SPECS[key]` is a total
function `String → Option PlatformSpec`.  The source field `aspectRatio`
of `MediaDimension` is embedded under the name `aspectLabel`.
-/

/-- A recommended media dimension entry (`MediaDimension` in the source).
`aspectLabel` embeds the source field `aspectRatio` (a display string such
as "1:1"). -/
structure MediaDimension where
  name : String
  width : Nat
  height : Nat
  aspectLabel : String
deriving Repr, DecidableEq

/-- Text limits of a platform (`PlatformSpec.text`). -/
structure TextLimits where
  maxChars : Nat
  sweetSpot : Option Nat
deriving Repr, DecidableEq

/-- Image limits of a platform (`PlatformSpec.images`). -/
structure ImageLimits where
  formats : List String
  maxSizeMB : Nat
  dimensions : List MediaDimension
deriving Repr, DecidableEq

/-- Video limits of a platform (`PlatformSpec.videos`). -/
structure VideoLimits where
  formats : List String
  maxSizeMB : Nat
  maxDurationSeconds : Nat
  dimensions : List MediaDimension
deriving Repr, DecidableEq

/-- Hashtag limits of a platform (`PlatformSpec.hashtags`). -/
structure HashtagLimits where
  max : Nat
  recommended : Nat
deriving Repr, DecidableEq

/-- Open-graph requirements (`PlatformSpec.openGraph`, optional). -/
structure OpenGraphSpec where
  required : Bool
  imageSize : String
deriving Repr, DecidableEq

/-- A platform specification (`PlatformSpec` in the source). -/
structure PlatformSpec where
  name : String
  text : TextLimits
  images : ImageLimits
  videos : VideoLimits
  hashtags : HashtagLimits
  openGraph : Option OpenGraphSpec
deriving Repr, DecidableEq

/-- The `instagram` entry of `PLATFORM_SPECS`. -/
def instagramSpec : PlatformSpec :=
  { name := "Instagram"
    text := { maxChars := 2200, sweetSpot := some 125 }
    images :=
      { formats := ["JPG", "PNG"]
        maxSizeMB := 15
        dimensions :=
          [ { name := "Square", width := 1080, height := 1080, aspectLabel := "1:1" },
            { name := "Portrait", width := 1080, height := 1350, aspectLabel := "4:5" },
            { name := "Story/Reel", width := 1080, height := 1920, aspectLabel := "9:16" } ] }
    videos :=
      { formats := ["MP4", "MOV"]
        maxSizeMB := 15
        maxDurationSeconds := 900
        dimensions :=
          [ { name := "Story", width := 1080, height := 1920, aspectLabel := "9:16" },
            { name := "Reel", width := 1080, height := 1920, aspectLabel := "9:16" } ] }
    hashtags := { max := 5, recommended := 3 }
    openGraph := none }

/-- The `twitter` entry of `PLATFORM_SPECS`. -/
def twitterSpec : PlatformSpec :=
  { name := "X (Twitter)"
    text := { maxChars := 280, sweetSpot := none }
    images :=
      { formats := ["JPG", "PNG", "GIF"]
        maxSizeMB := 5
        dimensions :=
          [ { name := "Standard", width := 1200, height := 675, aspectLabel := "16:9" } ] }
    videos :=
      { formats := ["MP4", "MOV"]
        maxSizeMB := 512
        maxDurationSeconds := 140
        dimensions :=
          [ { name := "Landscape", width := 1280, height := 720, aspectLabel := "16:9" },
            { name := "Portrait", width := 720, height := 1280, aspectLabel := "9:16" } ] }
    hashtags := { max := 999, recommended := 2 }
    openGraph := none }

/-- The `facebook` entry of `PLATFORM_SPECS`. -/
def facebookSpec : PlatformSpec :=
  { name := "Facebook"
    text := { maxChars := 63206, sweetSpot := some 80 }
    images :=
      { formats := ["JPG", "PNG"]
        maxSizeMB := 30
        dimensions :=
          [ { name := "Standard", width := 1200, height := 630, aspectLabel := "1.91:1" } ] }
    videos :=
      { formats := ["MP4"]
        maxSizeMB := 4000
        maxDurationSeconds := 14460
        dimensions :=
          [ { name := "Landscape", width := 1280, height := 720, aspectLabel := "16:9" },
            { name := "Portrait", width := 1080, height := 1920, aspectLabel := "9:16" } ] }
    hashtags := { max := 999, recommended := 2 }
    openGraph := some { required := true, imageSize := "1200x630" } }

/-- The `tiktok` entry of `PLATFORM_SPECS`. -/
def tiktokSpec : PlatformSpec :=
  { name := "TikTok"
    text := { maxChars := 4000, sweetSpot := none }
    images :=
      { formats := ["JPG", "PNG"]
        maxSizeMB := 50
        dimensions :=
          [ { name := "Story Carousel", width := 1080, height := 1920, aspectLabel := "9:16" } ] }
    videos :=
      { formats := ["MP4", "MOV"]
        maxSizeMB := 50
        maxDurationSeconds := 3600
        dimensions :=
          [ { name := "Standard", width := 1080, height := 1920, aspectLabel := "9:16" } ] }
    hashtags := { max := 30, recommended := 3 }
    openGraph := none }

/-- The `linkedin` entry of `PLATFORM_SPECS`. -/
def linkedinSpec : PlatformSpec :=
  { name := "LinkedIn"
    text := { maxChars := 3000, sweetSpot := some 1500 }
    images :=
      { formats := ["JPG", "PNG"]
        maxSizeMB := 10
        dimensions :=
          [ { name := "Standard", width := 1200, height := 627, aspectLabel := "1.91:1" },
            { name := "Story", width := 1080, height := 1920, aspectLabel := "9:16" } ] }
    videos :=
      { formats := ["MP4", "MOV"]
        maxSizeMB := 200
        maxDurationSeconds := 600
        dimensions :=
          [ { name := "Landscape", width := 1280, height := 720, aspectLabel := "16:9" } ] }
    hashtags := { max := 999, recommended := 5 }
    openGraph := none }

/-- The registry `PLATFORM_SPECS`, as the lookup function induced by the
record with keys `instagram`, `twitter`, `facebook`, `tiktok`, `linkedin`. -/
def PLATFORM_SPECS (key : String) : Option PlatformSpec :=
  if key = "instagram" then some instagramSpec
  else if key = "twitter" then some twitterSpec
  else if key = "facebook" then some facebookSpec
  else if key = "tiktok" then some tiktokSpec
  else if key = "linkedin" then some linkedinSpec
  else none

/-- `getPlatformSpec` from the source: case-insensitive lookup, `none`
embeds the source's `null`. -/
def getPlatformSpec (platform : String) : Option PlatformSpec :=
  PLATFORM_SPECS platform.toLower

/-- The `stats` record of a `ValidationResult`.  Every field of the source's
inline type is optional; an absent JavaScript key is `none`. -/
structure ValidationStats where
  charCount : Option Nat := none
  charLimit : Option Nat := none
  fileSizeMB : Option ℚ := none
  maxSizeMB : Option Nat := none
  hashtagCount : Option Nat := none
  hashtagLimit : Option Nat := none
  width : Option ℚ := none
  height : Option ℚ := none
  durationSeconds : Option ℚ := none
  maxDurationSeconds : Option Nat := none
deriving Repr, DecidableEq

/-- `ValidationResult` from the source. -/
structure ValidationResult where
  valid : Bool
  errors : List String
  warnings : List String
  stats : ValidationStats
deriving Repr, DecidableEq

/-- The result every validator returns when the platform key is unknown. -/
def unknownPlatformResult (platform : String) : ValidationResult :=
  { valid := false
    errors := ["Unknown platform: " ++ platform]
    warnings := []
    stats := {} }

/-- Error message pushed when the character limit is exceeded. -/
def charLimitMsg (name : String) (charCount maxChars : Nat) : String :=
  "Content exceeds " ++ name ++ " character limit (" ++ toString charCount ++ "/" ++
    toString maxChars ++ ")"

/-- Warning pushed when the sweet-spot length is exceeded. -/
def sweetSpotMsg (name : String) (charCount sweetSpot : Nat) : String :=
  "Content exceeds optimal length for " ++ name ++ " (" ++ toString charCount ++ "/" ++
    toString sweetSpot ++ " chars). Consider keeping key message in first " ++
    toString sweetSpot ++ " characters for better visibility."

/-- Warning pushed for very short content. -/
def veryShortMsg (charCount : Nat) : String :=
  "Content is very short (" ++ toString charCount ++
    " chars). Consider adding more context for better engagement."

/-- `validateTextContent` from the source. -/
def validateTextContent (platform content : String) : ValidationResult :=
  match PLATFORM_SPECS platform.toLower with
  | none => unknownPlatformResult platform
  | some spec =>
    let charCount := content.length
    let errors :=
      if charCount > spec.text.maxChars then
        [charLimitMsg spec.name charCount spec.text.maxChars]
      else []
    let warnings :=
      (match spec.text.sweetSpot with
       | some s => if charCount > s then [sweetSpotMsg spec.name charCount s] else []
       | none => []) ++
      (if charCount < 10 ∧ charCount > 0 then [veryShortMsg charCount] else [])
    { valid := errors.isEmpty
      errors := errors
      warnings := warnings
      stats := { charCount := some charCount, charLimit := some spec.text.maxChars } }

/-- First character a hashtag string must lose: `tag.replace(/^#/, '')`
removes one leading `#` when present.  `beginsWithHash` is that test. -/
def beginsWithHash (tag : String) : Bool :=
  tag.data.head? == some '#'

/-- `tag.replace(/^#/, '')` from the source. -/
def stripLeadingHash (tag : String) : String :=
  if beginsWithHash tag then String.mk tag.data.tail else tag

/-- Error message for too many hashtags. -/
def tooManyHashtagsMsg (name : String) (count mx : Nat) : String :=
  "Too many hashtags for " ++ name ++ " (" ++ toString count ++ "/" ++ toString mx ++ ")"

/-- Warning message for more hashtags than recommended. -/
def recommendedHashtagsMsg (name : String) (rec count : Nat) : String :=
  "More hashtags than recommended for " ++ name ++ ". Recommended: " ++ toString rec ++
    ", Current: " ++ toString count ++
    ". Research shows fewer, more targeted hashtags often perform better."

/-- Error message for an empty hashtag at position `i` (0-based). -/
def emptyHashtagMsg (i : Nat) : String :=
  "Hashtag " ++ toString (i + 1) ++ " is empty"

/-- Error message for a hashtag containing spaces. -/
def spacesHashtagMsg (tag : String) : String :=
  "Hashtag \"" ++ tag ++ "\" contains spaces (invalid)"

/-- Warning message for a very long hashtag. -/
def longHashtagMsg (tag : String) (len : Nat) : String :=
  "Hashtag \"" ++ tag ++ "\" is very long (" ++ toString len ++
    " chars). Consider using shorter, more memorable tags."

/-- Warning message when no hashtags are supplied on a platform where they
are valuable. -/
def noHashtagsMsg (name : String) : String :=
  "No hashtags provided. Hashtags can significantly improve discoverability on " ++
    name ++ "."

/-- The per-tag error pushes of the `hashtags.forEach` loop, with `i` the
index of the first tag of the list in the original array. -/
def hashtagItemErrors : Nat → List String → List String
  | _, [] => []
  | i, tag :: rest =>
    let cleanTag := stripLeadingHash tag
    ((if cleanTag.length = 0 then [emptyHashtagMsg i] else []) ++
     (if cleanTag.contains ' ' then [spacesHashtagMsg tag] else [])) ++
    hashtagItemErrors (i + 1) rest

/-- The per-tag warning pushes of the `hashtags.forEach` loop. -/
def hashtagItemWarnings : Nat → List String → List String
  | _, [] => []
  | i, tag :: rest =>
    let cleanTag := stripLeadingHash tag
    (if cleanTag.length > 30 then [longHashtagMsg tag cleanTag.length] else []) ++
    hashtagItemWarnings (i + 1) rest

/-- `validateHashtags` from the source. -/
def validateHashtags (platform : String) (hashtags : List String) : ValidationResult :=
  match PLATFORM_SPECS platform.toLower with
  | none => unknownPlatformResult platform
  | some spec =>
    let count := hashtags.length
    let errors :=
      (if count > spec.hashtags.max then
        [tooManyHashtagsMsg spec.name count spec.hashtags.max]
      else []) ++
      hashtagItemErrors 0 hashtags
    let warnings :=
      (if count > spec.hashtags.recommended then
        [recommendedHashtagsMsg spec.name spec.hashtags.recommended count]
      else []) ++
      hashtagItemWarnings 0 hashtags ++
      (if count = 0 ∧ ["instagram", "tiktok", "twitter"].contains platform.toLower then
        [noHashtagsMsg spec.name]
      else [])
    { valid := errors.isEmpty
      errors := errors
      warnings := warnings
      stats := { hashtagCount := some count, hashtagLimit := some spec.hashtags.max } }

/-- `format.toUpperCase().replace('JPEG', 'JPG')`: JavaScript `replace` with
a string pattern replaces the first occurrence only. -/
def normalizeImageFormat (format : String) : String :=
  match format.toUpper.splitOn "JPEG" with
  | [] => format.toUpper
  | [_] => format.toUpper
  | a :: rest => a ++ "JPG" ++ String.intercalate "JPEG" rest

/-- The aspect ratio `width / height` of a recommended dimension entry. -/
def dimQ (d : MediaDimension) : ℚ :=
  (d.width : ℚ) / (d.height : ℚ)

/-- The predicate of the `find` over recommended dimensions: the candidate
ratio is within a strict absolute difference of `0.05`. -/
def dimMatches (r : ℚ) (d : MediaDimension) : Bool :=
  |r - dimQ d| < (0.05 : ℚ)

/-- The `name (aspectRatio)` listing joined with `", "`. -/
def recommendedListing (dims : List MediaDimension) : String :=
  String.intercalate ", " (dims.map (fun d => d.name ++ " (" ++ d.aspectLabel ++ ")"))

/-- Format error of `validateImage`. -/
def imageFormatErrors (spec : PlatformSpec) (format : String) : List String :=
  if ¬ spec.images.formats.contains (normalizeImageFormat format) then
    ["Invalid image format for " ++ spec.name ++ ". Supported formats: " ++
      String.intercalate ", " spec.images.formats]
  else []

/-- File-size error of `validateImage`. -/
def imageSizeErrors (spec : PlatformSpec) (fileSizeMB : ℚ) : List String :=
  if fileSizeMB > (spec.images.maxSizeMB : ℚ) then
    ["Image size exceeds " ++ spec.name ++ " limit (" ++ toString fileSizeMB ++
      "MB / " ++ toString spec.images.maxSizeMB ++ "MB)"]
  else []

/-- Aspect-ratio warning text of `validateImage`. -/
def imageAspectWarning (spec : PlatformSpec) (width height : ℚ) : String :=
  "Image aspect ratio (" ++ toString width ++ "x" ++ toString height ++
    ") doesn't match recommended dimensions for " ++ spec.name ++
    ". Recommended: " ++ recommendedListing spec.images.dimensions ++
    ". Your image may be cropped or not display optimally."

/-- Small-width warning of `validateImage`; `Math.min` of an empty spread
is `Infinity`, below which every width falls, hence the `none` branch. -/
def imageWidthWarnings (spec : PlatformSpec) (width : ℚ) : List String :=
  match (spec.images.dimensions.map (fun d => d.width)).min? with
  | some m =>
    if width < (m : ℚ) * (0.5 : ℚ) then
      ["Image width (" ++ toString width ++ "px) is quite small. " ++
        "Recommended minimum: " ++ toString m ++ "px for best quality on " ++
        spec.name ++ "."]
    else []
  | none =>
    ["Image width (" ++ toString width ++ "px) is quite small. " ++
      "Recommended minimum: Infinitypx for best quality on " ++ spec.name ++ "."]

/-- `validateImage` from the source. -/
def validateImage (platform : String) (width height fileSizeMB : ℚ)
    (format : String) : ValidationResult :=
  match PLATFORM_SPECS platform.toLower with
  | none => unknownPlatformResult platform
  | some spec =>
    let errors := imageFormatErrors spec format ++ imageSizeErrors spec fileSizeMB
    let matchingDimension := spec.images.dimensions.find? (dimMatches (width / height))
    let warnings :=
      (match matchingDimension with
       | some _ => []
       | none => [imageAspectWarning spec width height]) ++
      imageWidthWarnings spec width
    { valid := errors.isEmpty
      errors := errors
      warnings := warnings
      stats :=
        { width := some width
          height := some height
          fileSizeMB := some fileSizeMB
          maxSizeMB := some spec.images.maxSizeMB } }

/-- Format error of `validateVideo` (`format.toUpperCase()`, no `JPEG`
rewrite for videos). -/
def videoFormatErrors (spec : PlatformSpec) (format : String) : List String :=
  if ¬ spec.videos.formats.contains format.toUpper then
    ["Invalid video format for " ++ spec.name ++ ". Supported formats: " ++
      String.intercalate ", " spec.videos.formats]
  else []

/-- File-size error of `validateVideo`. -/
def videoSizeErrors (spec : PlatformSpec) (fileSizeMB : ℚ) : List String :=
  if fileSizeMB > (spec.videos.maxSizeMB : ℚ) then
    ["Video size exceeds " ++ spec.name ++ " limit (" ++ toString fileSizeMB ++
      "MB / " ++ toString spec.videos.maxSizeMB ++ "MB)"]
  else []

/-- Duration error of `validateVideo`. -/
def videoDurationErrors (spec : PlatformSpec) (durationSeconds : ℚ) : List String :=
  if durationSeconds > (spec.videos.maxDurationSeconds : ℚ) then
    ["Video duration exceeds " ++ spec.name ++ " limit (" ++
      toString durationSeconds ++ "s / " ++ toString spec.videos.maxDurationSeconds ++ "s)"]
  else []

/-- Aspect-ratio warning text of `validateVideo`. -/
def videoAspectWarning (spec : PlatformSpec) (width height : ℚ) : String :=
  "Video aspect ratio (" ++ toString width ++ "x" ++ toString height ++
    ") doesn't match recommended dimensions for " ++ spec.name ++
    ". Recommended: " ++ recommendedListing spec.videos.dimensions ++
    ". Your video may be cropped or pillarboxed."

/-- Instagram-specific long-Reel warning of `validateVideo`. -/
def instagramReelsWarning : String :=
  "Video is longer than 90 seconds. For Instagram, in-app recorded Reels are limited to 90s. " ++
    "Uploaded videos can be up to 15 minutes but shorter content often performs better."

/-- TikTok-specific engagement warning of `validateVideo`. -/
def tiktokLengthWarning : String :=
  "Video is longer than 60 seconds. While TikTok supports up to 60 minutes, " ++
    "shorter content (15-60s) typically gets better engagement."

/-- Very-short-video warning of `validateVideo`. -/
def shortVideoWarning (durationSeconds : ℚ) : String :=
  "Video is very short (" ++ toString durationSeconds ++
    "s). Consider making it at least 3-5 seconds for better viewer experience."

/-- `validateVideo` from the source. -/
def validateVideo (platform : String) (width height durationSeconds fileSizeMB : ℚ)
    (format : String) : ValidationResult :=
  match PLATFORM_SPECS platform.toLower with
  | none => unknownPlatformResult platform
  | some spec =>
    let errors :=
      videoFormatErrors spec format ++ videoSizeErrors spec fileSizeMB ++
      videoDurationErrors spec durationSeconds
    let matchingDimension := spec.videos.dimensions.find? (dimMatches (width / height))
    let warnings :=
      (if durationSeconds < 3 then [shortVideoWarning durationSeconds] else []) ++
      (match matchingDimension with
       | some _ => []
       | none => [videoAspectWarning spec width height]) ++
      (if platform.toLower = "instagram" ∧ durationSeconds > 90 then
        [instagramReelsWarning]
      else []) ++
      (if platform.toLower = "tiktok" ∧ durationSeconds > 60 then
        [tiktokLengthWarning]
      else [])
    { valid := errors.isEmpty
      errors := errors
      warnings := warnings
      stats :=
        { width := some width
          height := some height
          durationSeconds := some durationSeconds
          maxDurationSeconds := some spec.videos.maxDurationSeconds
          fileSizeMB := some fileSizeMB
          maxSizeMB := some spec.videos.maxSizeMB } }

/-- The JavaScript object-spread merge `{...a, ...b}` on `stats` records:
for each key, `b`'s entry wins when present, otherwise `a`'s survives. -/
def ValidationStats.merge (a b : ValidationStats) : ValidationStats :=
  { charCount := b.charCount.orElse fun _ => a.charCount
    charLimit := b.charLimit.orElse fun _ => a.charLimit
    fileSizeMB := b.fileSizeMB.orElse fun _ => a.fileSizeMB
    maxSizeMB := b.maxSizeMB.orElse fun _ => a.maxSizeMB
    hashtagCount := b.hashtagCount.orElse fun _ => a.hashtagCount
    hashtagLimit := b.hashtagLimit.orElse fun _ => a.hashtagLimit
    width := b.width.orElse fun _ => a.width
    height := b.height.orElse fun _ => a.height
    durationSeconds := b.durationSeconds.orElse fun _ => a.durationSeconds
    maxDurationSeconds := b.maxDurationSeconds.orElse fun _ => a.maxDurationSeconds }

/-- `validatePost` from the source. -/
def validatePost (platform content : String) (hashtags : List String) : ValidationResult :=
  let textResult := validateTextContent platform content
  let hashtagResult := validateHashtags platform hashtags
  { valid := textResult.valid && hashtagResult.valid
    errors := textResult.errors ++ hashtagResult.errors
    warnings := textResult.warnings ++ hashtagResult.warnings
    stats := ValidationStats.merge textResult.stats hashtagResult.stats }

/-- `String.toLower` through the character list, so that concrete platform
keys evaluate (the position-based `String.map` does not reduce in the
kernel). -/
theorem toLower_data (s : String) : s.toLower = String.mk (s.data.map Char.toLower) :=
  String.map_eq Char.toLower s

/-- Char-level fact behind case-insensitivity: lowering twice equals
lowering once. -/
theorem char_toLower_toLower (c : Char) : c.toLower.toLower = c.toLower := by
  unfold Char.toLower
  by_cases h : c.toNat ≥ 65 ∧ c.toNat ≤ 90
  · rw [if_pos h]
    have hv : (c.toNat + 32).isValidChar := Or.inl (by omega)
    have h2 : (Char.ofNat (c.toNat + 32)).toNat = c.toNat + 32 := by
      unfold Char.ofNat
      rw [dif_pos hv]
      rfl
    rw [h2]
    rw [if_neg (by omega)]
  · rw [if_neg h, if_neg h]

/-- `String.toLower` is idempotent. -/
theorem string_toLower_toLower (s : String) : s.toLower.toLower = s.toLower := by
  unfold String.toLower
  rw [String.map_eq, String.map_eq]
  show String.mk (List.map Char.toLower (List.map Char.toLower s.data)) = _
  rw [List.map_map]
  congr 1
  apply List.map_congr_left
  intro c _
  exact char_toLower_toLower c

/-- Registry lookup of the literal key `instagram`. -/
theorem specs_instagram : PLATFORM_SPECS ("instagram".toLower) = some instagramSpec := by
  unfold String.toLower
  rw [String.map_eq]
  decide

/-- Registry lookup of the literal key `twitter`. -/
theorem specs_twitter : PLATFORM_SPECS ("twitter".toLower) = some twitterSpec := by
  unfold String.toLower
  rw [String.map_eq]
  decide

/-- Registry lookup of the literal key `facebook`. -/
theorem specs_facebook : PLATFORM_SPECS ("facebook".toLower) = some facebookSpec := by
  unfold String.toLower
  rw [String.map_eq]
  decide

/-- Registry lookup of the literal key `tiktok`. -/
theorem specs_tiktok : PLATFORM_SPECS ("tiktok".toLower) = some tiktokSpec := by
  unfold String.toLower
  rw [String.map_eq]
  decide

/-- Registry lookup of the literal key `linkedin`. -/
theorem specs_linkedin : PLATFORM_SPECS ("linkedin".toLower) = some linkedinSpec := by
  unfold String.toLower
  rw [String.map_eq]
  decide

/-- Registry lookup of the unknown key `myspace`. -/
theorem specs_myspace : PLATFORM_SPECS ("myspace".toLower) = none := by
  unfold String.toLower
  rw [String.map_eq]
  decide

/-- `getPlatformSpec` on `instagram`. -/
theorem lookup_instagram : getPlatformSpec "instagram" = some instagramSpec :=
  specs_instagram

/-- `getPlatformSpec` on `twitter`. -/
theorem lookup_twitter : getPlatformSpec "twitter" = some twitterSpec :=
  specs_twitter

/-- `getPlatformSpec` on `myspace`. -/
theorem lookup_myspace : getPlatformSpec "myspace" = none :=
  specs_myspace

/-- `isEmpty` over an append. -/
theorem isEmpty_append (l m : List String) : (l ++ m).isEmpty = (l.isEmpty && m.isEmpty) := by
  cases l <;> simp

/-- `validateTextContent` keeps `valid` synchronized with `errors`. -/
theorem text_valid_eq (p c : String) :
    (validateTextContent p c).valid = (validateTextContent p c).errors.isEmpty := by
  unfold validateTextContent
  cases PLATFORM_SPECS p.toLower <;> rfl

/-- `validateHashtags` keeps `valid` synchronized with `errors`. -/
theorem hashtags_valid_eq (p : String) (tags : List String) :
    (validateHashtags p tags).valid = (validateHashtags p tags).errors.isEmpty := by
  unfold validateHashtags
  cases PLATFORM_SPECS p.toLower <;> rfl

/-- `validateImage` keeps `valid` synchronized with `errors`. -/
theorem image_valid_eq (p : String) (w h fs : ℚ) (fmt : String) :
    (validateImage p w h fs fmt).valid = (validateImage p w h fs fmt).errors.isEmpty := by
  unfold validateImage
  cases PLATFORM_SPECS p.toLower <;> rfl

/-- `validateVideo` keeps `valid` synchronized with `errors`. -/
theorem video_valid_eq (p : String) (w h d fs : ℚ) (fmt : String) :
    (validateVideo p w h d fs fmt).valid = (validateVideo p w h d fs fmt).errors.isEmpty := by
  unfold validateVideo
  cases PLATFORM_SPECS p.toLower <;> rfl

/-- `validatePost` keeps `valid` synchronized with `errors`. -/
theorem post_valid_eq (p c : String) (tags : List String) :
    (validatePost p c tags).valid = (validatePost p c tags).errors.isEmpty := by
  show ((validateTextContent p c).valid && (validateHashtags p tags).valid) =
    ((validateTextContent p c).errors ++ (validateHashtags p tags).errors).isEmpty
  rw [text_valid_eq, hashtags_valid_eq, isEmpty_append]

/-- C1: for every platform string and every input, each of the five
validators returns a result whose `valid` flag equals emptiness of its
`errors` list; in particular the warnings list never influences `valid`. -/
theorem claim_C1 :
    (∀ p c : String,
      (validateTextContent p c).valid = (validateTextContent p c).errors.isEmpty) ∧
    (∀ (p : String) (tags : List String),
      (validateHashtags p tags).valid = (validateHashtags p tags).errors.isEmpty) ∧
    (∀ (p : String) (w h fs : ℚ) (fmt : String),
      (validateImage p w h fs fmt).valid = (validateImage p w h fs fmt).errors.isEmpty) ∧
    (∀ (p : String) (w h d fs : ℚ) (fmt : String),
      (validateVideo p w h d fs fmt).valid = (validateVideo p w h d fs fmt).errors.isEmpty) ∧
    (∀ (p c : String) (tags : List String),
      (validatePost p c tags).valid = (validatePost p c tags).errors.isEmpty) :=
  ⟨text_valid_eq, hashtags_valid_eq, image_valid_eq, video_valid_eq, post_valid_eq⟩

/-- C2: on a supported platform, content within the character limit yields
no errors, and content over the limit yields `valid = false` with the
stats echoing the exact character count and limit. -/
theorem claim_C2 (p c : String) (s : PlatformSpec) (hs : getPlatformSpec p = some s) :
    (c.length ≤ s.text.maxChars → (validateTextContent p c).errors = []) ∧
    (s.text.maxChars < c.length →
      (validateTextContent p c).valid = false ∧
      (validateTextContent p c).stats.charCount = some c.length ∧
      (validateTextContent p c).stats.charLimit = some s.text.maxChars) := by
  unfold getPlatformSpec at hs
  unfold validateTextContent
  rw [hs]
  constructor
  · intro hle
    show (if c.length > s.text.maxChars then
      [charLimitMsg s.name c.length s.text.maxChars] else []) = []
    rw [if_neg (by omega)]
  · intro hgt
    refine ⟨?_, rfl, rfl⟩
    show (if c.length > s.text.maxChars then
      [charLimitMsg s.name c.length s.text.maxChars] else []).isEmpty = false
    rw [if_pos (by omega)]
    rfl

set_option maxRecDepth 4000 in
/-- C2 witness: a 300-character tweet body exceeds the 280-character
limit of `twitter`. -/
theorem claim_C2_witness :
    (validateTextContent "twitter" (String.mk (List.replicate 300 'A'))).valid = false ∧
    (validateTextContent "twitter" (String.mk (List.replicate 300 'A'))).stats.charCount =
      some (String.mk (List.replicate 300 'A')).length ∧
    (validateTextContent "twitter" (String.mk (List.replicate 300 'A'))).stats.charLimit =
      some twitterSpec.text.maxChars :=
  (claim_C2 "twitter" (String.mk (List.replicate 300 'A')) twitterSpec lookup_twitter).2
    (by decide)

/-- C3 counterexample: on an unknown platform `validatePost` concatenates
the unknown-platform error of both sub-validators, so its `errors` list
holds the message twice, not once as the claim states. -/
theorem claim_C3_cex :
    (validatePost "myspace" "" []).errors ≠ ["Unknown platform: myspace"] := by
  have h : PLATFORM_SPECS ("myspace".toLower) = none := specs_myspace
  unfold validatePost validateTextContent validateHashtags
  rw [h]
  decide

/-- C3 amended: on an unknown platform each of the four single-purpose
validators returns exactly the single-error result with empty warnings and
empty stats, without raising; `validatePost` also returns `valid = false`
with empty warnings and stats, but its `errors` list repeats the
explanatory message twice (once per sub-validator). -/
theorem claim_C3_amended (p c : String) (tags : List String) (wi hi fsi : ℚ)
    (fmti : String) (wv hv dv fsv : ℚ) (fmtv : String)
    (hp : getPlatformSpec p = none) :
    validateTextContent p c = unknownPlatformResult p ∧
    validateHashtags p tags = unknownPlatformResult p ∧
    validateImage p wi hi fsi fmti = unknownPlatformResult p ∧
    validateVideo p wv hv dv fsv fmtv = unknownPlatformResult p ∧
    validatePost p c tags =
      { valid := false
        errors := ["Unknown platform: " ++ p, "Unknown platform: " ++ p]
        warnings := []
        stats := {} } := by
  unfold getPlatformSpec at hp
  unfold validatePost validateTextContent validateHashtags validateImage validateVideo
  rw [hp]
  exact ⟨rfl, rfl, rfl, rfl, rfl⟩

/-- C3 witness: the amended statement at the concrete unknown platform
`myspace`. -/
theorem claim_C3_witness :
    validateTextContent "myspace" "hello" = unknownPlatformResult "myspace" ∧
    validateHashtags "myspace" ["#a"] = unknownPlatformResult "myspace" ∧
    validateImage "myspace" 1080 1080 1 "JPG" = unknownPlatformResult "myspace" ∧
    validateVideo "myspace" 1080 1920 30 10 "MP4" = unknownPlatformResult "myspace" ∧
    validatePost "myspace" "hello" ["#a"] =
      { valid := false
        errors := ["Unknown platform: " ++ "myspace", "Unknown platform: " ++ "myspace"]
        warnings := []
        stats := {} } :=
  claim_C3_amended "myspace" "hello" ["#a"] 1080 1080 1 "JPG" 1080 1920 30 10 "MP4"
    lookup_myspace

/-- C4: `validatePost` composes the text and hashtag validators without
short-circuiting: `valid` is the conjunction, `errors` and `warnings` are
text-then-hashtag concatenations (so an error of either sub-check is an
error of the post), and `stats` is the object-spread merge in which the
hashtag entries win; its hashtag fields come from the hashtag result and
its character fields from the text result. -/
theorem claim_C4 (p c : String) (tags : List String) :
    (validatePost p c tags).valid =
      ((validateTextContent p c).valid && (validateHashtags p tags).valid) ∧
    (validatePost p c tags).errors =
      (validateTextContent p c).errors ++ (validateHashtags p tags).errors ∧
    (validatePost p c tags).warnings =
      (validateTextContent p c).warnings ++ (validateHashtags p tags).warnings ∧
    (validatePost p c tags).stats =
      ValidationStats.merge (validateTextContent p c).stats (validateHashtags p tags).stats ∧
    (∀ e : String, e ∈ (validatePost p c tags).errors ↔
      e ∈ (validateTextContent p c).errors ∨ e ∈ (validateHashtags p tags).errors) ∧
    (validatePost p c tags).stats.hashtagCount = (validateHashtags p tags).stats.hashtagCount ∧
    (validatePost p c tags).stats.hashtagLimit = (validateHashtags p tags).stats.hashtagLimit ∧
    (validatePost p c tags).stats.charCount = (validateTextContent p c).stats.charCount ∧
    (validatePost p c tags).stats.charLimit = (validateTextContent p c).stats.charLimit := by
  refine ⟨rfl, rfl, rfl, rfl, fun e => ?_, ?_, ?_, ?_, ?_⟩
  · exact List.mem_append
  all_goals
    unfold validatePost validateTextContent validateHashtags ValidationStats.merge
    cases PLATFORM_SPECS p.toLower <;> rfl

/-- C10: on a supported platform, empty content validates silently: no
errors, no warnings, `valid = true`, and stats `charCount = 0`,
`charLimit = maxChars`. -/
theorem claim_C10 (p : String) (s : PlatformSpec) (hs : getPlatformSpec p = some s) :
    validateTextContent p "" =
      { valid := true
        errors := []
        warnings := []
        stats := { charCount := some 0, charLimit := some s.text.maxChars } } := by
  unfold getPlatformSpec at hs
  simp only [validateTextContent, hs]
  cases s.text.sweetSpot <;> simp

/-- C10 witness: empty content on `instagram`. -/
theorem claim_C10_witness :
    validateTextContent "instagram" "" =
      { valid := true
        errors := []
        warnings := []
        stats := { charCount := some 0, charLimit := some instagramSpec.text.maxChars } } :=
  claim_C10 "instagram" instagramSpec lookup_instagram

/-- Head character of an appended string comes from the left part. -/
theorem data_head_append (a b : String) (c : Char) (h : a.data.head? = some c) :
    (a ++ b).data.head? = some c := by
  cases a with | mk l =>
  cases b with | mk m =>
  cases l with
  | nil => simp at h
  | cons x xs => exact h

/-- The empty-hashtag error starts with `H`. -/
theorem emptyHashtagMsg_head (i : Nat) : (emptyHashtagMsg i).data.head? = some 'H' := by
  unfold emptyHashtagMsg
  repeat apply data_head_append
  rfl

/-- The spaces-in-hashtag error starts with `H`. -/
theorem spacesHashtagMsg_head (tag : String) :
    (spacesHashtagMsg tag).data.head? = some 'H' := by
  unfold spacesHashtagMsg
  repeat apply data_head_append
  rfl

/-- The long-hashtag warning starts with `H`. -/
theorem longHashtagMsg_head (tag : String) (n : Nat) :
    (longHashtagMsg tag n).data.head? = some 'H' := by
  unfold longHashtagMsg
  repeat apply data_head_append
  rfl

/-- The too-many-hashtags error starts with `T`. -/
theorem tooManyHashtagsMsg_head (name : String) (a b : Nat) :
    (tooManyHashtagsMsg name a b).data.head? = some 'T' := by
  unfold tooManyHashtagsMsg
  repeat apply data_head_append
  rfl

/-- The more-than-recommended warning starts with `M`. -/
theorem recommendedHashtagsMsg_head (name : String) (a b : Nat) :
    (recommendedHashtagsMsg name a b).data.head? = some 'M' := by
  unfold recommendedHashtagsMsg
  repeat apply data_head_append
  rfl

/-- The no-hashtags warning starts with `N`. -/
theorem noHashtagsMsg_head (name : String) :
    (noHashtagsMsg name).data.head? = some 'N' := by
  unfold noHashtagsMsg
  repeat apply data_head_append
  rfl

/-- Membership in a conditional singleton forces equality. -/
theorem mem_ite_singleton {P : Prop} [Decidable P] {m x : String}
    (h : m ∈ if P then [x] else ([] : List String)) : m = x := by
  split at h
  · simpa using h
  · simp at h

/-- Every per-tag error message starts with `H`. -/
theorem mem_hashtagItemErrors_head (m : String) :
    ∀ (i : Nat) (tags : List String),
      m ∈ hashtagItemErrors i tags → m.data.head? = some 'H' := by
  intro i tags
  induction tags generalizing i with
  | nil => intro hm; simp [hashtagItemErrors] at hm
  | cons t rest ih =>
    intro hm
    simp only [hashtagItemErrors, List.mem_append] at hm
    rcases hm with (h1 | h2) | h3
    · rw [mem_ite_singleton h1]
      exact emptyHashtagMsg_head i
    · rw [mem_ite_singleton h2]
      exact spacesHashtagMsg_head t
    · exact ih (i + 1) h3

/-- Every per-tag warning message starts with `H`. -/
theorem mem_hashtagItemWarnings_head (m : String) :
    ∀ (i : Nat) (tags : List String),
      m ∈ hashtagItemWarnings i tags → m.data.head? = some 'H' := by
  intro i tags
  induction tags generalizing i with
  | nil => intro hm; simp [hashtagItemWarnings] at hm
  | cons t rest ih =>
    intro hm
    simp only [hashtagItemWarnings, List.mem_append] at hm
    rcases hm with h1 | h2
    · rw [mem_ite_singleton h1]
      exact longHashtagMsg_head t (stripLeadingHash t).length
    · exact ih (i + 1) h2

/-- The `errors` component of `validateHashtags` on a supported platform. -/
theorem validateHashtags_errors (p : String) (s : PlatformSpec) (tags : List String)
    (hs : PLATFORM_SPECS p.toLower = some s) :
    (validateHashtags p tags).errors =
      (if tags.length > s.hashtags.max then
        [tooManyHashtagsMsg s.name tags.length s.hashtags.max]
      else []) ++
      hashtagItemErrors 0 tags := by
  unfold validateHashtags
  rw [hs]

/-- The `warnings` component of `validateHashtags` on a supported platform. -/
theorem validateHashtags_warnings (p : String) (s : PlatformSpec) (tags : List String)
    (hs : PLATFORM_SPECS p.toLower = some s) :
    (validateHashtags p tags).warnings =
      (if tags.length > s.hashtags.recommended then
        [recommendedHashtagsMsg s.name s.hashtags.recommended tags.length]
      else []) ++
      hashtagItemWarnings 0 tags ++
      (if tags.length = 0 ∧ ["instagram", "tiktok", "twitter"].contains p.toLower then
        [noHashtagsMsg s.name]
      else []) := by
  unfold validateHashtags
  rw [hs]

/-- C6: on a supported platform the over-limit error appears exactly when
the tag count exceeds `max` and the over-recommended warning exactly when
it exceeds `recommended`; neither suppresses the other, so both fire
together whenever the count exceeds both thresholds. -/
theorem claim_C6 (p : String) (s : PlatformSpec) (tags : List String)
    (hs : getPlatformSpec p = some s) :
    (tooManyHashtagsMsg s.name tags.length s.hashtags.max ∈
        (validateHashtags p tags).errors ↔ s.hashtags.max < tags.length) ∧
    (recommendedHashtagsMsg s.name s.hashtags.recommended tags.length ∈
        (validateHashtags p tags).warnings ↔ s.hashtags.recommended < tags.length) := by
  unfold getPlatformSpec at hs
  constructor
  · rw [validateHashtags_errors p s tags hs]
    by_cases hc : tags.length > s.hashtags.max
    · rw [if_pos hc]
      simp [hc]
    · rw [if_neg hc, List.nil_append]
      constructor
      · intro hm
        have hh := mem_hashtagItemErrors_head _ 0 tags hm
        rw [tooManyHashtagsMsg_head] at hh
        exact absurd hh (by decide)
      · intro hlt
        exact absurd hlt hc
  · rw [validateHashtags_warnings p s tags hs]
    by_cases hc : tags.length > s.hashtags.recommended
    · rw [if_pos hc]
      simp [hc]
    · rw [if_neg hc, List.nil_append]
      constructor
      · intro hm
        rcases List.mem_append.mp hm with h1 | h2
        · have hh := mem_hashtagItemWarnings_head _ 0 tags h1
          rw [recommendedHashtagsMsg_head] at hh
          exact absurd hh (by decide)
        · have heq := mem_ite_singleton h2
          have hh := recommendedHashtagsMsg_head s.name s.hashtags.recommended tags.length
          rw [heq, noHashtagsMsg_head] at hh
          exact absurd hh (by decide)
      · intro hlt
        exact absurd hlt hc

/-- C6 witness: six hashtags on instagram (max 5, recommended 3) trigger
the error and the warning simultaneously. -/
theorem claim_C6_witness :
    (tooManyHashtagsMsg instagramSpec.name
        (["#a", "#b", "#c", "#d", "#e", "#f"] : List String).length
        instagramSpec.hashtags.max ∈
      (validateHashtags "instagram" ["#a", "#b", "#c", "#d", "#e", "#f"]).errors) ∧
    (recommendedHashtagsMsg instagramSpec.name instagramSpec.hashtags.recommended
        (["#a", "#b", "#c", "#d", "#e", "#f"] : List String).length ∈
      (validateHashtags "instagram" ["#a", "#b", "#c", "#d", "#e", "#f"]).warnings) := by
  have h := claim_C6 "instagram" instagramSpec ["#a", "#b", "#c", "#d", "#e", "#f"]
    lookup_instagram
  exact ⟨h.1.mpr (by decide), h.2.mpr (by decide)⟩

/-- Stripping after prepending a single `#` recovers the original tag. -/
theorem strip_hash_append (t : String) : stripLeadingHash ("#" ++ t) = t := by
  cases t with | mk l => rfl

/-- Stripping leaves a tag without a leading `#` unchanged. -/
theorem strip_no_hash (t : String) (h : beginsWithHash t = false) :
    stripLeadingHash t = t := by
  simp [stripLeadingHash, h]

/-- The three per-tag checks (`empty`, `contains space`, `length > 30`)
run by the `forEach` loop, as a function of the tag. -/
def tagChecks (tag : String) : Bool × Bool × Bool :=
  let cleanTag := stripLeadingHash tag
  (decide (cleanTag.length = 0), cleanTag.contains ' ', decide (cleanTag.length > 30))

/-- Prepending `#` to an unprefixed tag leaves the per-tag checks alone. -/
theorem tagChecks_hash (t : String) (h : beginsWithHash t = false) :
    tagChecks ("#" ++ t) = tagChecks t := by
  unfold tagChecks
  rw [strip_hash_append, strip_no_hash t h]

/-- Length of a conditional singleton. -/
theorem length_ite_singleton {P : Prop} [Decidable P] (x : String) :
    (if P then [x] else ([] : List String)).length = if P then 1 else 0 := by
  split <;> rfl

/-- Prepending `#` to unprefixed tags preserves the number of per-tag
errors (only the literal tag text echoed in messages changes). -/
theorem hashtagItemErrors_length_hash :
    ∀ (i : Nat) (tags : List String), (∀ t ∈ tags, beginsWithHash t = false) →
      (hashtagItemErrors i (tags.map (fun t => "#" ++ t))).length =
        (hashtagItemErrors i tags).length := by
  intro i tags
  induction tags generalizing i with
  | nil => intro _; rfl
  | cons t rest ih =>
    intro hnh
    have ht : beginsWithHash t = false := hnh t (List.mem_cons_self t rest)
    have hr : ∀ x ∈ rest, beginsWithHash x = false :=
      fun x hx => hnh x (List.mem_cons_of_mem t hx)
    simp only [List.map_cons, hashtagItemErrors]
    rw [strip_hash_append, strip_no_hash t ht]
    simp only [List.length_append, length_ite_singleton]
    rw [ih (i + 1) hr]

/-- Prepending `#` to unprefixed tags preserves the number of per-tag
warnings. -/
theorem hashtagItemWarnings_length_hash :
    ∀ (i : Nat) (tags : List String), (∀ t ∈ tags, beginsWithHash t = false) →
      (hashtagItemWarnings i (tags.map (fun t => "#" ++ t))).length =
        (hashtagItemWarnings i tags).length := by
  intro i tags
  induction tags generalizing i with
  | nil => intro _; rfl
  | cons t rest ih =>
    intro hnh
    have ht : beginsWithHash t = false := hnh t (List.mem_cons_self t rest)
    have hr : ∀ x ∈ rest, beginsWithHash x = false :=
      fun x hx => hnh x (List.mem_cons_of_mem t hx)
    simp only [List.map_cons, hashtagItemWarnings]
    rw [strip_hash_append, strip_no_hash t ht]
    simp only [List.length_append, length_ite_singleton]
    rw [ih (i + 1) hr]

/-- Two lists of equal length are simultaneously empty. -/
theorem isEmpty_congr_len (l₁ l₂ : List String) (h : l₁.length = l₂.length) :
    l₁.isEmpty = l₂.isEmpty := by
  cases l₁ <;> cases l₂ <;> simp_all

/-- C7: `validateHashtags` is invariant under prepending one `#` to each
unprefixed tag: same `valid` flag, same number of errors and warnings, and
the same per-tag check outcomes — only the literal tag text echoed in
messages can differ. -/
theorem claim_C7 (p : String) (tags : List String)
    (hnh : ∀ t ∈ tags, beginsWithHash t = false) :
    (validateHashtags p (tags.map (fun t => "#" ++ t))).valid =
      (validateHashtags p tags).valid ∧
    (validateHashtags p (tags.map (fun t => "#" ++ t))).errors.length =
      (validateHashtags p tags).errors.length ∧
    (validateHashtags p (tags.map (fun t => "#" ++ t))).warnings.length =
      (validateHashtags p tags).warnings.length ∧
    tags.map (fun t => tagChecks ("#" ++ t)) = tags.map tagChecks := by
  have hflags : tags.map (fun t => tagChecks ("#" ++ t)) = tags.map tagChecks :=
    List.map_congr_left (fun t ht => tagChecks_hash t (hnh t ht))
  cases hps : PLATFORM_SPECS p.toLower with
  | none =>
    refine ⟨?_, ?_, ?_, hflags⟩ <;>
    · unfold validateHashtags
      rw [hps]
  | some s =>
    have herr : (validateHashtags p (tags.map (fun t => "#" ++ t))).errors.length =
        (validateHashtags p tags).errors.length := by
      rw [validateHashtags_errors p s _ hps, validateHashtags_errors p s tags hps]
      simp only [List.length_append, List.length_map]
      rw [hashtagItemErrors_length_hash 0 tags hnh]
    have hwarn : (validateHashtags p (tags.map (fun t => "#" ++ t))).warnings.length =
        (validateHashtags p tags).warnings.length := by
      rw [validateHashtags_warnings p s _ hps, validateHashtags_warnings p s tags hps]
      simp only [List.length_append, List.length_map]
      rw [hashtagItemWarnings_length_hash 0 tags hnh]
    refine ⟨?_, herr, hwarn, hflags⟩
    rw [hashtags_valid_eq, hashtags_valid_eq]
    exact isEmpty_congr_len _ _ herr

/-- C7 witness: the pair of tag lists from the specification example. -/
theorem claim_C7_witness :
    (validateHashtags "twitter" ((["a", "b"] : List String).map (fun t => "#" ++ t))).valid =
      (validateHashtags "twitter" ["a", "b"]).valid ∧
    (validateHashtags "twitter" ((["a", "b"] : List String).map (fun t => "#" ++ t))).errors.length =
      (validateHashtags "twitter" ["a", "b"]).errors.length ∧
    (validateHashtags "twitter" ((["a", "b"] : List String).map (fun t => "#" ++ t))).warnings.length =
      (validateHashtags "twitter" ["a", "b"]).warnings.length ∧
    (["a", "b"] : List String).map (fun t => tagChecks ("#" ++ t)) =
      (["a", "b"] : List String).map tagChecks :=
  claim_C7 "twitter" ["a", "b"] (by decide)

/-- The `errors` component of `validateImage` on a supported platform:
only the format and file-size checks contribute, never the dimensions. -/
theorem validateImage_errors (p : String) (s : PlatformSpec) (w h fs : ℚ)
    (fmt : String) (hs : PLATFORM_SPECS p.toLower = some s) :
    (validateImage p w h fs fmt).errors = imageFormatErrors s fmt ++ imageSizeErrors s fs := by
  unfold validateImage
  rw [hs]

/-- The `warnings` component of `validateImage` on a supported platform. -/
theorem validateImage_warnings (p : String) (s : PlatformSpec) (w h fs : ℚ)
    (fmt : String) (hs : PLATFORM_SPECS p.toLower = some s) :
    (validateImage p w h fs fmt).warnings =
      (match s.images.dimensions.find? (dimMatches (w / h)) with
       | some _ => []
       | none => [imageAspectWarning s w h]) ++
      imageWidthWarnings s w := by
  unfold validateImage
  rw [hs]

/-- The `errors` component of `validateVideo` on a supported platform:
format, file-size and duration checks, in that order; dimensions never
contribute. -/
theorem validateVideo_errors (p : String) (s : PlatformSpec) (w h d fs : ℚ)
    (fmt : String) (hs : PLATFORM_SPECS p.toLower = some s) :
    (validateVideo p w h d fs fmt).errors =
      videoFormatErrors s fmt ++ videoSizeErrors s fs ++ videoDurationErrors s d := by
  unfold validateVideo
  rw [hs]

/-- The `warnings` component of `validateVideo` on a supported platform. -/
theorem validateVideo_warnings (p : String) (s : PlatformSpec) (w h d fs : ℚ)
    (fmt : String) (hs : PLATFORM_SPECS p.toLower = some s) :
    (validateVideo p w h d fs fmt).warnings =
      (if d < 3 then [shortVideoWarning d] else []) ++
      (match s.videos.dimensions.find? (dimMatches (w / h)) with
       | some _ => []
       | none => [videoAspectWarning s w h]) ++
      (if p.toLower = "instagram" ∧ d > 90 then [instagramReelsWarning] else []) ++
      (if p.toLower = "tiktok" ∧ d > 60 then [tiktokLengthWarning] else []) := by
  unfold validateVideo
  rw [hs]

/-- C5: the recommended-dimension search matches exactly the entries whose
own width/height ratio differs from the candidate ratio by strictly less
than `0.05` (a difference of exactly `0.05` does not match); when no entry
matches, the aspect warning listing the recommended `(name, aspectRatio)`
pairs is emitted, while the error list is exhausted by the format and size
(and, for videos, duration) checks, so an aspect mismatch alone never
makes `valid` false. -/
theorem claim_C5 (p : String) (s : PlatformSpec) (w h fs dv fsv : ℚ)
    (fmti fmtv : String) (hs : getPlatformSpec p = some s) (hh : 0 < h) :
    ((s.images.dimensions.find? (dimMatches (w / h))).isSome ↔
      ∃ dim ∈ s.images.dimensions,
        |w / h - (dim.width : ℚ) / (dim.height : ℚ)| < 0.05) ∧
    ((s.videos.dimensions.find? (dimMatches (w / h))).isSome ↔
      ∃ dim ∈ s.videos.dimensions,
        |w / h - (dim.width : ℚ) / (dim.height : ℚ)| < 0.05) ∧
    (∀ dim : MediaDimension, |w / h - dimQ dim| = 0.05 → dimMatches (w / h) dim = false) ∧
    (s.images.dimensions.find? (dimMatches (w / h)) = none →
      imageAspectWarning s w h ∈ (validateImage p w h fs fmti).warnings) ∧
    ((validateImage p w h fs fmti).errors = imageFormatErrors s fmti ++ imageSizeErrors s fs) ∧
    (s.videos.dimensions.find? (dimMatches (w / h)) = none →
      videoAspectWarning s w h ∈ (validateVideo p w h dv fsv fmtv).warnings) ∧
    ((validateVideo p w h dv fsv fmtv).errors =
      videoFormatErrors s fmtv ++ videoSizeErrors s fsv ++ videoDurationErrors s dv) := by
  unfold getPlatformSpec at hs
  refine ⟨?_, ?_, ?_, ?_, ?_, ?_, ?_⟩
  · simp [List.find?_isSome, dimMatches, dimQ]
  · simp [List.find?_isSome, dimMatches, dimQ]
  · intro dim hd
    unfold dimMatches
    rw [hd]
    simp
  · intro hnone
    rw [validateImage_warnings p s w h fs fmti hs, hnone]
    simp
  · exact validateImage_errors p s w h fs fmti hs
  · intro hnone
    rw [validateVideo_warnings p s w h dv fsv fmtv hs, hnone]
    simp
  · exact validateVideo_errors p s w h dv fsv fmtv hs

/-- C5 witness: the `twitter` platform at 1200x675. -/
theorem claim_C5_witness :
    ((twitterSpec.images.dimensions.find? (dimMatches ((1200 : ℚ) / 675))).isSome ↔
      ∃ dim ∈ twitterSpec.images.dimensions,
        |(1200 : ℚ) / 675 - (dim.width : ℚ) / (dim.height : ℚ)| < 0.05) ∧
    ((twitterSpec.videos.dimensions.find? (dimMatches ((1200 : ℚ) / 675))).isSome ↔
      ∃ dim ∈ twitterSpec.videos.dimensions,
        |(1200 : ℚ) / 675 - (dim.width : ℚ) / (dim.height : ℚ)| < 0.05) ∧
    (∀ dim : MediaDimension,
      |(1200 : ℚ) / 675 - dimQ dim| = 0.05 → dimMatches ((1200 : ℚ) / 675) dim = false) ∧
    (twitterSpec.images.dimensions.find? (dimMatches ((1200 : ℚ) / 675)) = none →
      imageAspectWarning twitterSpec 1200 675 ∈
        (validateImage "twitter" 1200 675 2 "PNG").warnings) ∧
    ((validateImage "twitter" 1200 675 2 "PNG").errors =
      imageFormatErrors twitterSpec "PNG" ++ imageSizeErrors twitterSpec 2) ∧
    (twitterSpec.videos.dimensions.find? (dimMatches ((1200 : ℚ) / 675)) = none →
      videoAspectWarning twitterSpec 1200 675 ∈
        (validateVideo "twitter" 1200 675 30 10 "MP4").warnings) ∧
    ((validateVideo "twitter" 1200 675 30 10 "MP4").errors =
      videoFormatErrors twitterSpec "MP4" ++ videoSizeErrors twitterSpec 10 ++
        videoDurationErrors twitterSpec 30) :=
  claim_C5 "twitter" twitterSpec 1200 675 2 30 10 "PNG" "MP4" lookup_twitter (by norm_num)

/-- `"instagram"` is already lower case. -/
theorem toLower_instagram : ("instagram" : String).toLower = "instagram" := by
  unfold String.toLower
  rw [String.map_eq]
  decide

/-- `"tiktok"` is already lower case. -/
theorem toLower_tiktok : ("tiktok" : String).toLower = "tiktok" := by
  unfold String.toLower
  rw [String.map_eq]
  decide

/-- Below or at the duration ceiling, the duration check stays silent. -/
theorem videoDurationErrors_eq_nil (s : PlatformSpec) (d : ℚ)
    (hle : d ≤ (s.videos.maxDurationSeconds : ℚ)) : videoDurationErrors s d = [] := by
  unfold videoDurationErrors
  rw [if_neg (not_lt.mpr hle)]

/-- C8: for `instagram`, the hard duration error fires only above the
900-second upload ceiling while any duration above 90 seconds yields the
in-app Reels warning, so durations in `(90, 900]` warn without a duration
error; for `tiktok`, the engagement warning fires above 60 seconds while
the hard error needs more than 3600 seconds. -/
theorem claim_C8 (w h d fs : ℚ) (fmt : String) :
    ((validateVideo "instagram" w h d fs fmt).errors =
      videoFormatErrors instagramSpec fmt ++ videoSizeErrors instagramSpec fs ++
        videoDurationErrors instagramSpec d) ∧
    (∀ dd : ℚ, videoDurationErrors instagramSpec dd = [] ↔ dd ≤ 900) ∧
    (90 < d → instagramReelsWarning ∈ (validateVideo "instagram" w h d fs fmt).warnings) ∧
    (90 < d → d ≤ 900 →
      (validateVideo "instagram" w h d fs fmt).errors =
        videoFormatErrors instagramSpec fmt ++ videoSizeErrors instagramSpec fs) ∧
    ((validateVideo "tiktok" w h d fs fmt).errors =
      videoFormatErrors tiktokSpec fmt ++ videoSizeErrors tiktokSpec fs ++
        videoDurationErrors tiktokSpec d) ∧
    (∀ dd : ℚ, videoDurationErrors tiktokSpec dd = [] ↔ dd ≤ 3600) ∧
    (60 < d → tiktokLengthWarning ∈ (validateVideo "tiktok" w h d fs fmt).warnings) := by
  have hig : ((instagramSpec.videos.maxDurationSeconds : Nat) : ℚ) = 900 := by
    norm_num [instagramSpec]
  have htt : ((tiktokSpec.videos.maxDurationSeconds : Nat) : ℚ) = 3600 := by
    norm_num [tiktokSpec]
  refine ⟨?_, ?_, ?_, ?_, ?_, ?_, ?_⟩
  · exact validateVideo_errors "instagram" instagramSpec w h d fs fmt specs_instagram
  · intro dd
    unfold videoDurationErrors
    rw [hig]
    by_cases hc : dd > 900
    · rw [if_pos hc]
      simp [not_le.mpr hc]
    · rw [if_neg hc]
      simp [not_lt.mp hc]
  · intro hd
    rw [validateVideo_warnings "instagram" instagramSpec w h d fs fmt specs_instagram]
    simp [toLower_instagram, hd]
  · intro hd hle
    rw [validateVideo_errors "instagram" instagramSpec w h d fs fmt specs_instagram,
      videoDurationErrors_eq_nil instagramSpec d (by rw [hig]; exact hle),
      List.append_nil]
  · exact validateVideo_errors "tiktok" tiktokSpec w h d fs fmt specs_tiktok
  · intro dd
    unfold videoDurationErrors
    rw [htt]
    by_cases hc : dd > 3600
    · rw [if_pos hc]
      simp [not_le.mpr hc]
    · rw [if_neg hc]
      simp [not_lt.mp hc]
  · intro hd
    rw [validateVideo_warnings "tiktok" tiktokSpec w h d fs fmt specs_tiktok]
    simp [toLower_tiktok, hd]

/-- C8 witness: a 100-second 1080x1920 MP4 on both platforms. -/
theorem claim_C8_witness :
    (instagramReelsWarning ∈ (validateVideo "instagram" 1080 1920 100 10 "MP4").warnings) ∧
    ((validateVideo "instagram" 1080 1920 100 10 "MP4").errors =
      videoFormatErrors instagramSpec "MP4" ++ videoSizeErrors instagramSpec 10) ∧
    (tiktokLengthWarning ∈ (validateVideo "tiktok" 1080 1920 100 10 "MP4").warnings) := by
  have hc := claim_C8 1080 1920 100 10 "MP4"
  exact ⟨hc.2.2.1 (by norm_num), hc.2.2.2.1 (by norm_num) (by norm_num),
    hc.2.2.2.2.2.2 (by norm_num)⟩

/-- Lowering the all-caps key gives the registry key. -/
theorem toLower_INSTAGRAM : ("INSTAGRAM" : String).toLower = "instagram" := by
  unfold String.toLower
  rw [String.map_eq]
  decide

/-- C9: `getPlatformSpec` is case-insensitive and total: it agrees with
itself on the lowercased input, in particular on `INSTAGRAM` versus
`instagram`; and on any string whose lowercase form is none of the five
registry keys it returns `none` instead of raising. -/
theorem claim_C9 :
    (∀ s : String, getPlatformSpec s = getPlatformSpec s.toLower) ∧
    getPlatformSpec "INSTAGRAM" = getPlatformSpec "instagram" ∧
    (∀ s : String,
      s.toLower ∉ (["instagram", "twitter", "facebook", "tiktok", "linkedin"] : List String) →
      getPlatformSpec s = none) := by
  refine ⟨?_, ?_, ?_⟩
  · intro s
    unfold getPlatformSpec
    rw [string_toLower_toLower]
  · unfold getPlatformSpec
    rw [toLower_INSTAGRAM, specs_instagram]
    decide
  · intro s hmem
    unfold getPlatformSpec PLATFORM_SPECS
    simp only [List.mem_cons, List.not_mem_nil, or_false, not_or] at hmem
    obtain ⟨h1, h2, h3, h4, h5⟩ := hmem
    rw [if_neg h1, if_neg h2, if_neg h3, if_neg h4, if_neg h5]

/-- C9 witness: the unsupported key `myspace` yields `none`. -/
theorem claim_C9_witness : getPlatformSpec "myspace" = none :=
  claim_C9.2.2 "myspace" (by
    unfold String.toLower
    rw [String.map_eq]
    decide)
